import Mathlib

/-!
Verification of the file-organizer utility (src/main.rs).

Shallow embedding of the two components of the program:

* the Notification Dispatcher (`send_notification`, src/main.rs lines 30-109),
  modelled as a pure function from an environment describing the outcome of
  each external interaction (the native `notify-rust` call, the `which`
  presence probes, and the `Command::output()` invocations) to the trace of
  attempted steps and the step that finally delivered the notification;

* the CLI driver (`main`, src/main.rs lines 123-225) after argument
  validation, modelled as a pure function `runMain` from the directory
  listing, the extension argument, the confirmation input line and oracles
  for the filesystem effects (directory creation, per-file rename) to a
  record of everything observable the run did.

Strings are embedded as `List Char`; file-system paths are represented by
the file name of their last component (all paths in play live directly in
the source directory).
-/

namespace Organizador

/-!
Notification Dispatcher (`send_notification`).
-/

/-- The three external notification utilities tried in steps 2-4 of
`send_notification`, in their chain order. -/
inductive Util
  | notifySend
  | kdialog
  | zenity
deriving DecidableEq

/-- One observable event of a `send_notification` run. -/
inductive NotifEvent
  | tryNative
  | probe (u : Util)
  | invoke (u : Util)
  | console
deriving DecidableEq

/-- Which step of the chain finally delivered the notification. -/
inductive Delivered
  | native
  | ext (u : Util)
  | console
deriving DecidableEq

/-- Environment for one external utility.

* `probe`: outcome of running `which` on the utility via `.output()`:
  `none` models a spawn error of `which` itself, `some b` models a completed
  run whose `status.success()` is `b` (the code reduces this with
  `.map(|o| o.status.success()).unwrap_or(false)`).
* `invoke`: outcome of invoking the utility itself via `.output()`:
  `none` models a spawn error (`Err(_)`), `some c` models a completed run
  with exit code `c` (Rust returns `Ok(output)` regardless of `c`). -/
structure UtilEnv where
  probe : Option Bool
  invoke : Option Nat
deriving DecidableEq

/-- Environment of a whole `send_notification` call: `native` is whether the
`notify_rust::Notification::show()` call at step 1 returns `Ok`. -/
structure NotifyEnv where
  native : Bool
  ns : UtilEnv
  kd : UtilEnv
  zen : UtilEnv
deriving DecidableEq

/-- The presence probe as the code consumes it:
`.output().map(|o| o.status.success()).unwrap_or(false)`. -/
def probePasses (e : UtilEnv) : Bool := e.probe.getD false

/-- One external step of the chain (steps 2-4 of `send_notification`):
probe with `which`; when the probe passes, invoke the utility; the step
delivers exactly when the invocation returns `Ok(_)` — the code never looks
at the exit status of the utility itself (`if let Ok(_) = ... .output()`). -/
def utilStep (e : UtilEnv) (u : Util) : List NotifEvent × Bool :=
  if probePasses e then ([NotifEvent.probe u, NotifEvent.invoke u], e.invoke.isSome)
  else ([NotifEvent.probe u], false)

/-- The notification fallback chain of `send_notification`
(src/main.rs lines 30-109): native call, then `notify-send`, `kdialog`,
`zenity`, each guarded by a `which` probe, and finally the console print.
Returns the ordered trace of events together with the step that delivered. -/
def send_notification (env : NotifyEnv) : List NotifEvent × Delivered :=
  if env.native then ([NotifEvent.tryNative], Delivered.native)
  else
    let s1 := utilStep env.ns Util.notifySend
    if s1.2 then ([NotifEvent.tryNative] ++ s1.1, Delivered.ext Util.notifySend)
    else
      let s2 := utilStep env.kd Util.kdialog
      if s2.2 then ([NotifEvent.tryNative] ++ s1.1 ++ s2.1, Delivered.ext Util.kdialog)
      else
        let s3 := utilStep env.zen Util.zenity
        if s3.2 then
          ([NotifEvent.tryNative] ++ s1.1 ++ s2.1 ++ s3.1, Delivered.ext Util.zenity)
        else
          ([NotifEvent.tryNative] ++ s1.1 ++ s2.1 ++ s3.1 ++ [NotifEvent.console],
            Delivered.console)

/-- A concrete environment in which the native call fails and `notify-send`
is present but its invocation exits with status 1 (a failing invocation in
the sense of the spec), while `kdialog` is present and would succeed. -/
def envNonzeroExit : NotifyEnv :=
  { native := false
    ns := { probe := some true, invoke := some 1 }
    kd := { probe := some true, invoke := some 0 }
    zen := { probe := some true, invoke := some 0 } }

/-- A concrete environment in which the native call fails, `notify-send` has
a spawn error, `kdialog` is present and succeeds. -/
def envSpawnErr : NotifyEnv :=
  { native := false
    ns := { probe := some true, invoke := none }
    kd := { probe := some true, invoke := some 0 }
    zen := { probe := some true, invoke := some 0 } }

/-- A concrete environment in which the native call fails, `notify-send` is
present but exits non-zero, `kdialog` is absent, and `zenity` is present and
succeeds — an instance of "native and the first two external utilities
unavailable/fail, the third succeeds". -/
def envThirdSucceeds : NotifyEnv :=
  { native := false
    ns := { probe := some true, invoke := some 2 }
    kd := { probe := some false, invoke := some 0 }
    zen := { probe := some true, invoke := some 0 } }

/-- A concrete environment in which the native call fails, `notify-send`
has a spawn error, `kdialog` is absent, and `zenity` is present and
succeeds. -/
def envOrderWitness : NotifyEnv :=
  { native := false
    ns := { probe := some true, invoke := none }
    kd := { probe := some false, invoke := some 0 }
    zen := { probe := some true, invoke := some 0 } }

/-!
Strings, extensions, normalization.
-/

/-- ASCII lowercasing of one character, modelling the lowercasing the Rust
code performs via `to_lowercase` (only the ASCII range is exercised by the
program's comparisons). -/
def lowerChar (c : Char) : Char :=
  if 65 ≤ c.toNat ∧ c.toNat ≤ 90 then Char.ofNat (c.toNat + 32) else c

/-- Lowercasing of an embedded string (`str::to_lowercase`). -/
def toLowerL (s : List Char) : List Char := s.map lowerChar

/-- Stripping every leading `'.'` character, modelling
`str::trim_start_matches('.')` — note this strips all leading matches, not
just one. -/
def trimDots : List Char → List Char
  | [] => []
  | c :: t => if c = '.' then trimDots t else c :: t

/-- Normalization of the extension argument, exactly as in
`args[2].trim_start_matches('.').to_lowercase()` (src/main.rs line 134). -/
def normalizeExt (arg : List Char) : List Char := toLowerL (trimDots arg)

/-- Modelled from the spec: normalization that strips *exactly one* leading
separator character, if present, then lowercases — the behaviour the spec
ascribes to the extension argument. Kept for comparison with the code's
`normalizeExt`. -/
def specNormalizeExt (arg : List Char) : List Char :=
  toLowerL (match arg with
    | [] => []
    | c :: t => if c = '.' then t else c :: t)

/-- The suffix of the list after its last `'.'`, or `none` when it has no
dot. -/
def afterLastDot : List Char → Option (List Char)
  | [] => none
  | c :: rest =>
    match afterLastDot rest with
    | some e => some e
    | none => if c = '.' then some rest else none

/-- Extension of a file name, following the rules of Rust's
`Path::extension`: `none` for the empty name and for a name that is exactly
two dots; otherwise the first character is skipped and the portion after
the last remaining `'.'` is the extension (`none` when there is no such dot
— in particular a name that begins with `'.'` and has no other dot has no
extension). -/
def rustExtension (name : List Char) : Option (List Char) :=
  if name = ['.', '.'] then none
  else
    match name with
    | [] => none
    | _ :: rest => afterLastDot rest

/-- Extension comparison performed by the discovery loop
(`ext.to_lowercase() == ext_objetivo`, src/main.rs line 148); `false` when
the entry has no extension. -/
def extMatches (name extObj : List Char) : Bool :=
  match rustExtension name with
  | some e => toLowerL e == extObj
  | none => false

/-!
Directory entries and discovery.
-/

/-- An immediate child of the source directory, as yielded by the depth-1
`WalkDir` walk (the root itself, being a directory, never passes the
`is_file` test and is omitted from the model): its file name and whether it
is a regular file. -/
structure Entry where
  name : List Char
  isFile : Bool
deriving DecidableEq

/-- The discovery loop (src/main.rs lines 144-153): keep the regular files
among the immediate children whose extension, lowercased, equals the
normalized target extension; result in enumeration order, as file names. -/
def discover (entries : List Entry) (extObj : List Char) : List (List Char) :=
  (entries.filter (fun e => e.isFile && extMatches e.name extObj)).map (fun e => e.name)

/-!
Confirmation.
-/

/-- Whitespace for the trimming of the response line (the ASCII subset a
line read from standard input can carry). -/
def isWs (c : Char) : Bool := c == ' ' || c == '\t' || c == '\n' || c == '\r'

/-- Trimming whitespace from both ends (`str::trim`). -/
def trimL (s : List Char) : List Char :=
  ((s.dropWhile isWs).reverse.dropWhile isWs).reverse

/-- The confirmation test `respuesta.trim().to_lowercase() == "s"`
(src/main.rs line 175, negated there to cancel). -/
def confirmYes (input : List Char) : Bool := toLowerL (trimL input) == ['s']

/-!
The run of `main` after argument and source validation.
-/

/-- Kind of message handed to the Notification Dispatcher at the end of a
run (src/main.rs lines 211-224). -/
inductive NotifKind
  | movedMsg (n : Nat)
  | noMovement
deriving DecidableEq

/-- Everything observable a run of `main` does after the source directory
has been validated. `finalEntries` is the listing of the source directory
afterwards; `destContents` the listing of the destination subdirectory
(meaningful when it is a directory). -/
structure RunResult where
  infoNoFiles : Bool
  promptShown : Bool
  cancelled : Bool
  createdDest : Bool
  fatal : Bool
  attempts : List (List Char)
  failures : List (List Char × List Char)
  moved : Nat
  movedFiles : List (List Char)
  notification : Option NotifKind
  finalEntries : List Entry
  destContents : List (List Char)
deriving DecidableEq

/-- The root-directory entry whose name is the destination path's last
component, if any — `ruta_destino.exists()` holds exactly when this is
`some`, and the destination is a regular file exactly when that entry is. -/
def destEntry (entries : List Entry) (extObj : List Char) : Option Entry :=
  entries.find? (fun e => e.name == extObj)

/-- The destination-existence test `ruta_destino.exists()`
(src/main.rs line 183). -/
def destExistsB (entries : List Entry) (extObj : List Char) : Bool :=
  (destEntry entries extObj).isSome

/-- Whether the destination path exists and is a regular file rather than a
directory. -/
def destIsFileB (entries : List Entry) (extObj : List Char) : Bool :=
  match destEntry entries extObj with
  | some e => e.isFile
  | none => false

/-- The error text the OS returns when renaming into a path whose parent is
a regular file; the exact wording is immaterial, only that the rename fails
with a reason. -/
def notADirMsg : List Char := "Not a directory".data

/-- The move loop (src/main.rs lines 188-202): for each matched file, in
order, attempt the rename; the oracle returning `none` models `Ok`, and
`some msg` models `Err` with reason `msg`. Returns the success count, the
successfully moved names in order, and the reported pairs of file name and
reason for the failures, in order. -/
def moveLoop (files : List (List Char)) (res : List Char → Option (List Char)) :
    Nat × List (List Char) × List (List Char × List Char) :=
  match files with
  | [] => (0, [], [])
  | f :: rest =>
    let r := moveLoop rest res
    match res f with
    | none => (r.1 + 1, f :: r.2.1, r.2.2)
    | some e => (r.1, r.2.1, (f, e) :: r.2.2)

/-- The body of `main` after the source directory has been validated
(src/main.rs lines 142-225), as a function of

* `entries` — the depth-1 listing of the source directory,
* `destContents0` — the current listing of the destination subdirectory
  when it is a directory (`[]` otherwise),
* `extArg` — the raw extension argument `args[2]`,
* `input` — the line read from standard input at the confirmation prompt,
* `createOk` — whether `fs::create_dir` succeeds when attempted,
* `renameErr` — per-file rename outcome when the destination is a
  directory (`none` means `Ok`; `some msg` means `Err` with reason `msg`);
  a rename into a destination that exists as a regular file always fails
  with `notADirMsg`, whatever `renameErr` says, because the OS refuses a
  rename whose target parent is not a directory. -/
def runMain (entries : List Entry) (destContents0 : List (List Char))
    (extArg input : List Char) (createOk : Bool)
    (renameErr : List Char → Option (List Char)) : RunResult :=
  let extObj := normalizeExt extArg
  let found := discover entries extObj
  if found.isEmpty then
    { infoNoFiles := true, promptShown := false, cancelled := false
      createdDest := false, fatal := false, attempts := [], failures := []
      moved := 0, movedFiles := [], notification := none
      finalEntries := entries, destContents := destContents0 }
  else if !confirmYes input then
    { infoNoFiles := false, promptShown := true, cancelled := true
      createdDest := false, fatal := false, attempts := [], failures := []
      moved := 0, movedFiles := [], notification := none
      finalEntries := entries, destContents := destContents0 }
  else if !destExistsB entries extObj && !createOk then
    { infoNoFiles := false, promptShown := true, cancelled := false
      createdDest := false, fatal := true, attempts := [], failures := []
      moved := 0, movedFiles := [], notification := none
      finalEntries := entries, destContents := destContents0 }
  else
    let effRes : List Char → Option (List Char) := fun f =>
      if destIsFileB entries extObj then some notADirMsg else renameErr f
    let r := moveLoop found effRes
    { infoNoFiles := false, promptShown := true, cancelled := false
      createdDest := !destExistsB entries extObj, fatal := false
      attempts := found, failures := r.2.2, moved := r.1, movedFiles := r.2.1
      notification := some (if r.1 > 0 then NotifKind.movedMsg r.1 else NotifKind.noMovement)
      finalEntries :=
        (entries.filter (fun e => !(e.isFile && r.2.1.contains e.name)))
          ++ (if !destExistsB entries extObj then [⟨extObj, false⟩] else [])
      destContents := destContents0 ++ r.2.1 }

/-!
Concrete inputs used in witnesses and counterexamples.
-/

/-- The end-to-end scenario listing of the spec: files named after the
letters a (lowercase mov extension), b (uppercase MOV extension) and a
text file, all regular files. -/
def entScenario : List Entry :=
  [⟨"a.mov".data, true⟩, ⟨"b.MOV".data, true⟩, ⟨"c.txt".data, true⟩]

/-- A listing with no file of the target extension. -/
def entNoMatch : List Entry := [⟨"c.txt".data, true⟩]

/-- A listing where the destination path already exists as a regular file
named like the normalized extension. -/
def entDestIsFile : List Entry := [⟨"a.mov".data, true⟩, ⟨"mov".data, true⟩]

/-- A rename oracle under which every rename succeeds. -/
def noRenameErr (_f : List Char) : Option (List Char) := none

/-- A rename oracle under which exactly the rename of the uppercase file
fails, with a permission-denied reason. -/
def renameFailsB (f : List Char) : Option (List Char) :=
  if f = "b.MOV".data then some ("permission denied".data) else none

/-!
Helper lemmas.
-/

theorem toNat_ofNat_valid {n : Nat} (h : n.isValidChar) : (Char.ofNat n).toNat = n := by
  rw [Char.ofNat, dif_pos h]
  rfl

theorem lowerChar_eq_dot {c : Char} (h : lowerChar c = '.') : c = '.' := by
  unfold lowerChar at h
  split at h
  · exfalso
    rename_i hr
    have hv : (c.toNat + 32).isValidChar := by
      left
      show c.toNat + 32 < 0xd800
      omega
    have h2 := congrArg Char.toNat h
    rw [toNat_ofNat_valid hv] at h2
    have hdot : ('.' : Char).toNat = 46 := rfl
    omega
  · exact h

theorem lowerChar_dot : lowerChar '.' = '.' := by decide

theorem trimDots_toLowerL (s : List Char) :
    trimDots (toLowerL s) = toLowerL (trimDots s) := by
  induction s with
  | nil => rfl
  | cons c t ih =>
    by_cases hc : c = '.'
    · subst hc
      simp only [toLowerL, List.map_cons, lowerChar_dot, trimDots, if_pos rfl] at *
      exact ih
    · have hlc : lowerChar c ≠ '.' := fun h => hc (lowerChar_eq_dot h)
      simp [toLowerL, trimDots, hc, hlc]

theorem normalizeExt_congr {a b : List Char} (h : toLowerL a = toLowerL b) :
    normalizeExt a = normalizeExt b := by
  unfold normalizeExt
  rw [← trimDots_toLowerL, ← trimDots_toLowerL, h]

theorem moveLoop_spec (files : List (List Char)) (res : List Char → Option (List Char)) :
    moveLoop files res =
      ((files.filter (fun f => (res f).isNone)).length,
        files.filter (fun f => (res f).isNone),
        files.filterMap (fun f => (res f).map (fun e => (f, e)))) := by
  induction files with
  | nil => rfl
  | cons f rest ih =>
    simp only [moveLoop, ih]
    cases hr : res f <;> simp [List.filter_cons, List.filterMap_cons, hr]

theorem moveLoop_count (files : List (List Char)) (res : List Char → Option (List Char)) :
    (moveLoop files res).1 + (moveLoop files res).2.2.length = files.length := by
  induction files with
  | nil => rfl
  | cons f rest ih =>
    simp only [moveLoop]
    cases hr : res f <;> simp <;> omega

theorem extMatches_iff {n ext : List Char} :
    extMatches n ext = true ↔ (rustExtension n).map toLowerL = some ext := by
  unfold extMatches
  cases rustExtension n <;> simp

theorem destExistsB_of_isFile {entries : List Entry} {extObj : List Char}
    (h : destIsFileB entries extObj = true) : destExistsB entries extObj = true := by
  unfold destIsFileB at h
  unfold destExistsB
  cases hd : destEntry entries extObj <;> simp_all

theorem discover_append (a b : List Entry) (extObj : List Char) :
    discover (a ++ b) extObj = discover a extObj ++ discover b extObj := by
  simp [discover]

theorem runMain_no_matches (entries : List Entry) (dc : List (List Char))
    (extArg input : List Char) (createOk : Bool)
    (re : List Char → Option (List Char))
    (h : discover entries (normalizeExt extArg) = []) :
    runMain entries dc extArg input createOk re =
      { infoNoFiles := true, promptShown := false, cancelled := false
        createdDest := false, fatal := false, attempts := [], failures := []
        moved := 0, movedFiles := [], notification := none
        finalEntries := entries, destContents := dc } := by
  rw [runMain]
  simp [h]

theorem runMain_cancelled (entries : List Entry) (dc : List (List Char))
    (extArg input : List Char) (createOk : Bool)
    (re : List Char → Option (List Char))
    (h1 : discover entries (normalizeExt extArg) ≠ [])
    (h2 : confirmYes input = false) :
    runMain entries dc extArg input createOk re =
      { infoNoFiles := false, promptShown := true, cancelled := true
        createdDest := false, fatal := false, attempts := [], failures := []
        moved := 0, movedFiles := [], notification := none
        finalEntries := entries, destContents := dc } := by
  rw [runMain]
  simp [h1, h2]

/-!
Claim C1 — failure handling of the external backend invocations.
-/

/-- C1 counterexample: the claim says a backend invocation that completes
with a non-zero exit status is treated like an unavailable backend, with
the dispatcher falling through to the next step. In the environment
`envNonzeroExit` the `notify-send` invocation exits with status 1, yet the
chain delivers at `notify-send` and `kdialog` is never even probed: the
code only pattern-matches `Ok(_)` on `Command::output()`, which succeeds
whenever the process spawned, whatever its exit status. -/
theorem notification_nonzero_exit_stops_chain :
    (send_notification envNonzeroExit).2 = Delivered.ext Util.notifySend ∧
    envNonzeroExit.ns.invoke = some 1 ∧
    NotifEvent.probe Util.kdialog ∉ (send_notification envNonzeroExit).1 ∧
    NotifEvent.console ∉ (send_notification envNonzeroExit).1 := by
  decide

/-- C1, amended: an invocation's *spawn error* is treated identically to the
backend being unavailable — the dispatcher never delivers at a step whose
invocation failed to spawn, and (when the probe passed) falls through to
probing the next step; a completed invocation, regardless of exit status,
stops the chain. No error is surfaced at any step (the dispatcher is a
total function into a delivered step). -/
theorem notification_spawn_error_falls_through (env : NotifyEnv) :
    (env.ns.invoke = none → (send_notification env).2 ≠ Delivered.ext Util.notifySend) ∧
    (env.kd.invoke = none → (send_notification env).2 ≠ Delivered.ext Util.kdialog) ∧
    (env.zen.invoke = none → (send_notification env).2 ≠ Delivered.ext Util.zenity) ∧
    (env.native = false → probePasses env.ns = true → env.ns.invoke = none →
      NotifEvent.probe Util.kdialog ∈ (send_notification env).1) := by
  refine ⟨?_, ?_, ?_, ?_⟩
  · intro h
    simp only [send_notification, utilStep, probePasses, h, Option.isSome_none]
    split_ifs <;> simp_all
  · intro h
    simp only [send_notification, utilStep, probePasses, h, Option.isSome_none]
    split_ifs <;> simp_all
  · intro h
    simp only [send_notification, utilStep, probePasses, h, Option.isSome_none]
    split_ifs <;> simp_all
  · intro hn hp h
    simp only [send_notification, utilStep, probePasses, h, hn, Option.isSome_none] at *
    split_ifs <;> simp_all

/-- C1 witness: in `envSpawnErr` the `notify-send` invocation has a spawn
error; the dispatcher does not deliver there and probes `kdialog`. -/
theorem notification_spawn_error_falls_through_witness :
    envSpawnErr.ns.invoke = none ∧
    (send_notification envSpawnErr).2 ≠ Delivered.ext Util.notifySend ∧
    NotifEvent.probe Util.kdialog ∈ (send_notification envSpawnErr).1 :=
  ⟨rfl, (notification_spawn_error_falls_through envSpawnErr).1 rfl,
    (notification_spawn_error_falls_through envSpawnErr).2.2.2 rfl rfl rfl⟩

/-!
Claim C2 — fallback ordering of the dispatcher.
-/

/-- C2 counterexample: `envThirdSucceeds` is an environment in which the
native call fails, the first two external utilities are unavailable or fail
(`notify-send` is present but exits non-zero, `kdialog` is absent) and the
third (`zenity`) would succeed; the claim predicts success at `zenity`, but
the dispatcher delivers at `notify-send` and `zenity` is never attempted. -/
theorem notification_third_succeeds_counterexample :
    (send_notification envThirdSucceeds).2 = Delivered.ext Util.notifySend ∧
    (send_notification envThirdSucceeds).2 ≠ Delivered.ext Util.zenity ∧
    NotifEvent.probe Util.zenity ∉ (send_notification envThirdSucceeds).1 ∧
    envThirdSucceeds.ns.invoke = some 2 := by
  decide

/-- C2, amended: in any environment where the native call fails and the
first two external utilities are unavailable (probe reports absence) or
have a spawn error, while `zenity` is present and its invocation completes,
the dispatcher attempts native, `notify-send`, `kdialog`, `zenity` in that
order, delivers at `zenity`, never reaches the console fallback, and a
backend whose presence probe reports absence is skipped without being
invoked. -/
theorem notification_fallback_order (env : NotifyEnv)
    (hn : env.native = false)
    (h1 : probePasses env.ns = false ∨ env.ns.invoke = none)
    (h2 : probePasses env.kd = false ∨ env.kd.invoke = none)
    (h3 : probePasses env.zen = true) (h4 : env.zen.invoke.isSome = true) :
    (send_notification env).1 =
      [NotifEvent.tryNative] ++ (utilStep env.ns Util.notifySend).1 ++
        (utilStep env.kd Util.kdialog).1 ++
        [NotifEvent.probe Util.zenity, NotifEvent.invoke Util.zenity] ∧
    (send_notification env).2 = Delivered.ext Util.zenity ∧
    NotifEvent.console ∉ (send_notification env).1 ∧
    (probePasses env.ns = false → NotifEvent.invoke Util.notifySend ∉ (send_notification env).1) ∧
    (probePasses env.kd = false → NotifEvent.invoke Util.kdialog ∉ (send_notification env).1) := by
  have hs1 : (utilStep env.ns Util.notifySend).2 = false := by
    rcases h1 with h | h
    · simp [utilStep, h]
    · unfold utilStep
      split <;> simp [h]
  have hs2 : (utilStep env.kd Util.kdialog).2 = false := by
    rcases h2 with h | h
    · simp [utilStep, h]
    · unfold utilStep
      split <;> simp [h]
  have hs3 : utilStep env.zen Util.zenity =
      ([NotifEvent.probe Util.zenity, NotifEvent.invoke Util.zenity], true) := by
    simp [utilStep, h3, h4]
  have hmain : send_notification env =
      ([NotifEvent.tryNative] ++ (utilStep env.ns Util.notifySend).1 ++
        (utilStep env.kd Util.kdialog).1 ++
        [NotifEvent.probe Util.zenity, NotifEvent.invoke Util.zenity],
        Delivered.ext Util.zenity) := by
    rw [send_notification]
    simp only [hn, if_false, Bool.false_eq_true]
    rw [if_neg (by simp [hs1]), if_neg (by simp [hs2])]
    rw [hs3]
    simp
  refine ⟨by rw [hmain], by rw [hmain], ?_, ?_, ?_⟩
  · rw [hmain]
    unfold utilStep
    split_ifs <;> simp_all
  · intro hp
    rw [hmain]
    have hns : (utilStep env.ns Util.notifySend).1 = [NotifEvent.probe Util.notifySend] := by
      simp [utilStep, hp]
    rw [hns]
    unfold utilStep
    split_ifs <;> simp_all
  · intro hp
    rw [hmain]
    have hkd : (utilStep env.kd Util.kdialog).1 = [NotifEvent.probe Util.kdialog] := by
      simp [utilStep, hp]
    rw [hkd]
    unfold utilStep
    split_ifs <;> simp_all

/-- C2 witness: in `envOrderWitness` (native fails, `notify-send` spawn
error, `kdialog` absent, `zenity` succeeds) the chain delivers at `zenity`
and the console fallback is never reached. -/
theorem notification_fallback_order_witness :
    (send_notification envOrderWitness).2 = Delivered.ext Util.zenity ∧
    NotifEvent.console ∉ (send_notification envOrderWitness).1 :=
  ⟨(notification_fallback_order envOrderWitness (by decide) (Or.inr (by decide))
      (Or.inl (by decide)) (by decide) (by decide)).2.1,
    (notification_fallback_order envOrderWitness (by decide) (Or.inr (by decide))
      (Or.inl (by decide)) (by decide) (by decide)).2.2.1⟩

/-!
Claim C3 — the zero-match path.
-/

/-- C3 counterexample: the claim says a zero-match run still invokes the
Notification Dispatcher once with a no-movement message. On a listing with
no matching file the run prints the informational message, skips the
prompt, and returns early with *no* notification dispatched at all
(src/main.rs lines 155-158 return before any `send_notification` call). -/
theorem zero_matches_no_notification_counterexample :
    discover entNoMatch (normalizeExt ("mov".data)) = [] ∧
    (runMain entNoMatch [] ("mov".data) ("s\n".data) true noRenameErr).infoNoFiles = true ∧
    (runMain entNoMatch [] ("mov".data) ("s\n".data) true noRenameErr).promptShown = false ∧
    (runMain entNoMatch [] ("mov".data) ("s\n".data) true noRenameErr).notification = none := by
  refine ⟨rfl, rfl, rfl, rfl⟩

/-- C3, amended: for every run in which discovery yields zero matches, the
program prints the informational message, skips the confirmation prompt,
and returns early without moving anything, without touching the listing,
and without invoking the Notification Dispatcher at all (no notification of
either variety is sent on this path). -/
theorem zero_matches_early_return (entries : List Entry) (dc : List (List Char))
    (extArg input : List Char) (createOk : Bool)
    (re : List Char → Option (List Char))
    (h : discover entries (normalizeExt extArg) = []) :
    (runMain entries dc extArg input createOk re).infoNoFiles = true ∧
    (runMain entries dc extArg input createOk re).promptShown = false ∧
    (runMain entries dc extArg input createOk re).moved = 0 ∧
    (runMain entries dc extArg input createOk re).notification = none ∧
    (runMain entries dc extArg input createOk re).finalEntries = entries := by
  rw [runMain_no_matches entries dc extArg input createOk re h]
  exact ⟨rfl, rfl, rfl, rfl, rfl⟩

/-- C3 witness: the amended statement at the concrete zero-match listing. -/
theorem zero_matches_early_return_witness :
    (runMain entNoMatch [] ("mov".data) ("x\n".data) true noRenameErr).infoNoFiles = true ∧
    (runMain entNoMatch [] ("mov".data) ("x\n".data) true noRenameErr).promptShown = false ∧
    (runMain entNoMatch [] ("mov".data) ("x\n".data) true noRenameErr).moved = 0 ∧
    (runMain entNoMatch [] ("mov".data) ("x\n".data) true noRenameErr).notification = none ∧
    (runMain entNoMatch [] ("mov".data) ("x\n".data) true noRenameErr).finalEntries = entNoMatch :=
  zero_matches_early_return entNoMatch [] ("mov".data) ("x\n".data) true noRenameErr rfl

/-!
Claim C4 — characterization of discovery.
-/

/-- C4: discovery returns exactly the names of the regular files directly
inside the listing whose extension, lowercased, equals the normalized
target extension — subdirectories and files with other or no extensions are
excluded — and the case used in the input extension argument does not
affect the resulting match set (arguments equal up to lowercasing yield
identical match sets). -/
theorem discover_characterization (entries : List Entry) (E : List Char) :
    (∀ n, n ∈ discover entries (normalizeExt E) ↔
      ∃ e, e ∈ entries ∧ e.name = n ∧ e.isFile = true ∧
        (rustExtension n).map toLowerL = some (normalizeExt E)) ∧
    (∀ E₂, toLowerL E = toLowerL E₂ →
      discover entries (normalizeExt E) = discover entries (normalizeExt E₂)) := by
  constructor
  · intro n
    simp only [discover, List.mem_map, List.mem_filter, Bool.and_eq_true, extMatches_iff]
    constructor
    · rintro ⟨e, ⟨he, hf, hx⟩, rfl⟩
      exact ⟨e, he, rfl, hf, hx⟩
    · rintro ⟨e, he, rfl, hf, hx⟩
      exact ⟨e, ⟨he, hf, hx⟩, rfl⟩
  · intro E₂ h
    rw [normalizeExt_congr h]

/-- C4 witness: in the scenario listing, the lowercase mov file is
discovered for the uppercase-MOV argument, and the uppercase and lowercase
arguments yield identical match sets. -/
theorem discover_characterization_witness :
    "a.mov".data ∈ discover entScenario (normalizeExt (".MOV".data)) ∧
    discover entScenario (normalizeExt (".MOV".data)) =
      discover entScenario (normalizeExt (".mov".data)) :=
  ⟨((discover_characterization entScenario (".MOV".data)).1 ("a.mov".data)).2
      ⟨⟨"a.mov".data, true⟩, by decide, rfl, rfl, by decide⟩,
    (discover_characterization entScenario (".MOV".data)).2 (".mov".data) (by decide)⟩

/-!
Claim C5 — fail-closed confirmation.
-/

/-- C5: the run proceeds to the move phase only when the trimmed,
lowercased response equals the affirmative token; for every other input
line (the empty line included) the run is cancelled with zero files moved,
the listing untouched, and no notification of any kind dispatched. -/
theorem confirm_fail_closed (entries : List Entry) (dc : List (List Char))
    (extArg input : List Char) (createOk : Bool)
    (re : List Char → Option (List Char)) :
    (discover entries (normalizeExt extArg) ≠ [] → confirmYes input = false →
      (runMain entries dc extArg input createOk re).cancelled = true ∧
      (runMain entries dc extArg input createOk re).moved = 0 ∧
      (runMain entries dc extArg input createOk re).attempts = [] ∧
      (runMain entries dc extArg input createOk re).notification = none ∧
      (runMain entries dc extArg input createOk re).finalEntries = entries) ∧
    ((runMain entries dc extArg input createOk re).attempts ≠ [] →
      confirmYes input = true) := by
  constructor
  · intro h1 h2
    rw [runMain_cancelled entries dc extArg input createOk re h1 h2]
    exact ⟨rfl, rfl, rfl, rfl, rfl⟩
  · intro ha
    by_contra hc
    have h2 : confirmYes input = false := by
      cases h : confirmYes input
      · rfl
      · exact absurd h hc
    by_cases h1 : discover entries (normalizeExt extArg) = []
    · rw [runMain_no_matches entries dc extArg input createOk re h1] at ha
      exact ha rfl
    · rw [runMain_cancelled entries dc extArg input createOk re h1 h2] at ha
      exact ha rfl

/-- C5 witness: declining with an n-line on the scenario listing cancels
the run, moves nothing, and dispatches no notification. -/
theorem confirm_fail_closed_witness :
    discover entScenario (normalizeExt (".mov".data)) ≠ [] ∧
    confirmYes ("n\n".data) = false ∧
    (runMain entScenario [] (".mov".data) ("n\n".data) true noRenameErr).cancelled = true ∧
    (runMain entScenario [] (".mov".data) ("n\n".data) true noRenameErr).moved = 0 ∧
    (runMain entScenario [] (".mov".data) ("n\n".data) true noRenameErr).notification = none := by
  refine ⟨by decide, by decide, ?_, ?_, ?_⟩
  · exact ((confirm_fail_closed entScenario [] (".mov".data) ("n\n".data) true noRenameErr).1
      (by decide) (by decide)).1
  · exact ((confirm_fail_closed entScenario [] (".mov".data) ("n\n".data) true noRenameErr).1
      (by decide) (by decide)).2.1
  · exact ((confirm_fail_closed entScenario [] (".mov".data) ("n\n".data) true noRenameErr).1
      (by decide) (by decide)).2.2.2.1

/-!
Claim C6 — normalization of the extension argument.
-/

/-- C6 counterexample: on an argument with two leading dots the code's
normalization (which strips *all* leading separator characters before
lowercasing) differs from the claimed strip-exactly-one-separator
normalization. -/
theorem normalize_two_dots_counterexample :
    normalizeExt ("..MOV".data) = "mov".data ∧
    specNormalizeExt ("..MOV".data) = ".mov".data ∧
    normalizeExt ("..MOV".data) ≠ specNormalizeExt ("..MOV".data) := by
  refine ⟨by decide, by decide, by decide⟩

/-- C6, amended: the normalized target extension equals the argument with
*every* leading separator character stripped, then lowercased; prepending a
separator never changes the result (so arguments with or without one
leading separator are accepted and normalize to the same value), and on
arguments without a leading separator the code's normalization agrees with
plain lowercasing and with the spec's strip-one-separator normalization. -/
theorem normalize_strips_all_leading_dots (arg : List Char) :
    normalizeExt ('.' :: arg) = normalizeExt arg ∧
    (arg.head? ≠ some '.' →
      normalizeExt arg = toLowerL arg ∧ normalizeExt arg = specNormalizeExt arg) := by
  constructor
  · simp [normalizeExt, trimDots]
  · intro h
    cases arg with
    | nil => exact ⟨rfl, rfl⟩
    | cons c t =>
      have hc : c ≠ '.' := by
        intro hx
        exact h (by rw [hx]; rfl)
      constructor
      · simp [normalizeExt, trimDots, hc]
      · simp [normalizeExt, trimDots, hc, specNormalizeExt]

/-- C6 witness: the amended statement at a concrete uppercase argument. -/
theorem normalize_strips_all_leading_dots_witness :
    normalizeExt ('.' :: "MOV".data) = normalizeExt ("MOV".data) ∧
    normalizeExt ("MOV".data) = toLowerL ("MOV".data) ∧
    normalizeExt ("MOV".data) = specNormalizeExt ("MOV".data) :=
  ⟨(normalize_strips_all_leading_dots ("MOV".data)).1,
    ((normalize_strips_all_leading_dots ("MOV".data)).2 (by decide)).1,
    ((normalize_strips_all_leading_dots ("MOV".data)).2 (by decide)).2⟩

/-!
Claim C7 — tolerance of per-file move failures.
-/

/-- C7: in a confirmed run whose destination is a directory (existing or
creatable), every matched file is attempted in order, the run does not
abort, each failing rename is reported with the file name and the
underlying reason, the moved count equals the number of successful renames,
and moved count plus reported failures account for every match. -/
theorem move_failure_tolerance (entries : List Entry) (dc : List (List Char))
    (extArg input : List Char) (createOk : Bool)
    (re : List Char → Option (List Char))
    (h1 : discover entries (normalizeExt extArg) ≠ [])
    (h2 : confirmYes input = true)
    (h3 : destIsFileB entries (normalizeExt extArg) = false)
    (h4 : destExistsB entries (normalizeExt extArg) = true ∨ createOk = true) :
    (runMain entries dc extArg input createOk re).fatal = false ∧
    (runMain entries dc extArg input createOk re).attempts =
      discover entries (normalizeExt extArg) ∧
    (runMain entries dc extArg input createOk re).movedFiles =
      (discover entries (normalizeExt extArg)).filter (fun f => (re f).isNone) ∧
    (runMain entries dc extArg input createOk re).moved =
      ((discover entries (normalizeExt extArg)).filter (fun f => (re f).isNone)).length ∧
    (runMain entries dc extArg input createOk re).failures =
      (discover entries (normalizeExt extArg)).filterMap
        (fun f => (re f).map (fun e => (f, e))) ∧
    (runMain entries dc extArg input createOk re).moved +
        (runMain entries dc extArg input createOk re).failures.length =
      (discover entries (normalizeExt extArg)).length := by
  have hcond : (!destExistsB entries (normalizeExt extArg) && !createOk) = false := by
    rcases h4 with h | h <;> simp [h]
  rw [runMain]
  simp [h1, h2, hcond, h3, moveLoop_spec]
  have hc2 := moveLoop_count (discover entries (normalizeExt extArg)) re
  simp [moveLoop_spec] at hc2
  exact hc2

/-- C7 witness: on the scenario listing with a rename oracle failing only
on the uppercase file, both matches are attempted, one file is moved, and
exactly the failing file is reported with its reason. -/
theorem move_failure_tolerance_witness :
    (runMain entScenario [] (".mov".data) ("s\n".data) true renameFailsB).attempts =
      discover entScenario (normalizeExt (".mov".data)) ∧
    (runMain entScenario [] (".mov".data) ("s\n".data) true renameFailsB).movedFiles =
      ["a.mov".data] ∧
    (runMain entScenario [] (".mov".data) ("s\n".data) true renameFailsB).moved = 1 ∧
    (runMain entScenario [] (".mov".data) ("s\n".data) true renameFailsB).failures =
      [("b.MOV".data, "permission denied".data)] ∧
    (runMain entScenario [] (".mov".data) ("s\n".data) true renameFailsB).fatal = false :=
  ⟨(move_failure_tolerance entScenario [] (".mov".data) ("s\n".data) true renameFailsB
      (by decide) (by decide) (by decide) (Or.inr rfl)).2.1,
    ((move_failure_tolerance entScenario [] (".mov".data) ("s\n".data) true renameFailsB
      (by decide) (by decide) (by decide) (Or.inr rfl)).2.2.1).trans (by decide),
    ((move_failure_tolerance entScenario [] (".mov".data) ("s\n".data) true renameFailsB
      (by decide) (by decide) (by decide) (Or.inr rfl)).2.2.2.1).trans (by decide),
    ((move_failure_tolerance entScenario [] (".mov".data) ("s\n".data) true renameFailsB
      (by decide) (by decide) (by decide) (Or.inr rfl)).2.2.2.2.1).trans (by decide),
    (move_failure_tolerance entScenario [] (".mov".data) ("s\n".data) true renameFailsB
      (by decide) (by decide) (by decide) (Or.inr rfl)).1⟩

/-!
Claim C8 — destination-directory creation policy.
-/

/-- C8: in a confirmed run, when the destination already exists no creation
happens, no creation error can arise, and the destination's prior contents
are preserved with only the moved files appended; when it does not exist
and creation succeeds, it is created exactly once under the name of the
normalized extension; and when creation fails the run aborts fatally before
any move is attempted, with nothing moved and no notification. -/
theorem destination_create_policy (entries : List Entry) (dc : List (List Char))
    (extArg input : List Char) (createOk : Bool)
    (re : List Char → Option (List Char))
    (h1 : discover entries (normalizeExt extArg) ≠ [])
    (h2 : confirmYes input = true) :
    (destExistsB entries (normalizeExt extArg) = true →
      (runMain entries dc extArg input createOk re).createdDest = false ∧
      (runMain entries dc extArg input createOk re).fatal = false ∧
      (runMain entries dc extArg input createOk re).destContents =
        dc ++ (runMain entries dc extArg input createOk re).movedFiles) ∧
    (destExistsB entries (normalizeExt extArg) = false → createOk = true →
      (runMain entries dc extArg input createOk re).createdDest = true ∧
      (runMain entries dc extArg input createOk re).fatal = false ∧
      Entry.mk (normalizeExt extArg) false ∈
        (runMain entries dc extArg input createOk re).finalEntries) ∧
    (destExistsB entries (normalizeExt extArg) = false → createOk = false →
      (runMain entries dc extArg input createOk re).fatal = true ∧
      (runMain entries dc extArg input createOk re).attempts = [] ∧
      (runMain entries dc extArg input createOk re).moved = 0 ∧
      (runMain entries dc extArg input createOk re).notification = none ∧
      (runMain entries dc extArg input createOk re).finalEntries = entries ∧
      (runMain entries dc extArg input createOk re).destContents = dc) := by
  refine ⟨?_, ?_, ?_⟩
  · intro hex
    rw [runMain]
    simp [h1, h2, hex]
  · intro hex hco
    rw [runMain]
    simp [h1, h2, hex, hco]
  · intro hex hco
    rw [runMain]
    simp [h1, h2, hex, hco]

/-- C8 witness: on the scenario listing the destination does not exist yet;
with creation succeeding it is created once, the run is not fatal, and the
new directory entry carries the normalized extension as its name. -/
theorem destination_create_policy_witness :
    (runMain entScenario [] (".mov".data) ("s\n".data) true noRenameErr).createdDest = true ∧
    (runMain entScenario [] (".mov".data) ("s\n".data) true noRenameErr).fatal = false ∧
    Entry.mk (normalizeExt (".mov".data)) false ∈
      (runMain entScenario [] (".mov".data) ("s\n".data) true noRenameErr).finalEntries :=
  (destination_create_policy entScenario [] (".mov".data) ("s\n".data) true noRenameErr
      (by decide) (by decide)).2.1 (by decide) rfl

/-!
Claim C9 — idempotence of a fully successful run.
-/

/-- C9: after a confirmed run in which every rename succeeds (destination a
directory, existing or creatable), discovery on the resulting listing with
the same extension yields zero matches — all matching files moved one level
down into the extension-named subdirectory and the subdirectory itself,
not being a regular file, is never a match. -/
theorem second_run_zero_matches (entries : List Entry) (dc : List (List Char))
    (extArg input : List Char) (createOk : Bool)
    (re : List Char → Option (List Char))
    (h2 : confirmYes input = true)
    (h3 : destIsFileB entries (normalizeExt extArg) = false)
    (h4 : destExistsB entries (normalizeExt extArg) = true ∨ createOk = true)
    (h5 : ∀ f, re f = none) :
    discover (runMain entries dc extArg input createOk re).finalEntries
      (normalizeExt extArg) = [] := by
  by_cases hfound : discover entries (normalizeExt extArg) = []
  · rw [runMain_no_matches entries dc extArg input createOk re hfound]
    exact hfound
  · have hcond : (!destExistsB entries (normalizeExt extArg) && !createOk) = false := by
      rcases h4 with h | h <;> simp [h]
    rw [runMain]
    simp [hfound, h2, hcond, h3, moveLoop_spec, h5]
    rw [discover_append]
    have hB : discover (if destExistsB entries (normalizeExt extArg) = false
        then [Entry.mk (normalizeExt extArg) false] else []) (normalizeExt extArg) = [] := by
      split <;> simp [discover]
    rw [hB, List.append_nil]
    unfold discover
    rw [List.filter_filter]
    simp only [List.map_eq_nil_iff]
    rw [List.filter_eq_nil_iff]
    intro e he
    simp only [Bool.and_eq_true, Bool.or_eq_true, Bool.not_eq_true',
      decide_eq_false_iff_not, not_and]
    intro hf hm
    rcases hm with hm | hm
    · rw [hf.1] at hm
      exact absurd hm (by decide)
    · exact hm (List.mem_map.mpr ⟨e, List.mem_filter.mpr ⟨he, by simp [hf.1, hf.2]⟩, rfl⟩)

/-- C9 witness: running on the scenario listing with every rename
succeeding leaves a listing in which the same extension discovers
nothing. -/
theorem second_run_zero_matches_witness :
    discover (runMain entScenario [] (".mov".data) ("s\n".data) true noRenameErr).finalEntries
      (normalizeExt (".mov".data)) = [] :=
  second_run_zero_matches entScenario [] (".mov".data) ("s\n".data) true noRenameErr
    (by decide) (by decide) (Or.inr rfl) (fun _ => rfl)

/-!
Claim C10 — destination path existing as a regular file.
-/

/-- C10: when the destination path exists as a regular file, the existence
test makes the run skip directory creation (so no fatal creation error is
raised), every rename into the pseudo-directory fails and is reported
per-file with its reason, the run completes with a moved count of zero, and
the no-movement notification is dispatched. -/
theorem dest_regular_file_run (entries : List Entry) (dc : List (List Char))
    (extArg input : List Char) (createOk : Bool)
    (re : List Char → Option (List Char))
    (h1 : discover entries (normalizeExt extArg) ≠ [])
    (h2 : confirmYes input = true)
    (h3 : destIsFileB entries (normalizeExt extArg) = true) :
    (runMain entries dc extArg input createOk re).fatal = false ∧
    (runMain entries dc extArg input createOk re).createdDest = false ∧
    (runMain entries dc extArg input createOk re).attempts =
      discover entries (normalizeExt extArg) ∧
    (runMain entries dc extArg input createOk re).moved = 0 ∧
    (runMain entries dc extArg input createOk re).movedFiles = [] ∧
    (runMain entries dc extArg input createOk re).failures =
      (discover entries (normalizeExt extArg)).map (fun f => (f, notADirMsg)) ∧
    (runMain entries dc extArg input createOk re).notification =
      some NotifKind.noMovement := by
  have hex := destExistsB_of_isFile h3
  have hcond : (!destExistsB entries (normalizeExt extArg) && !createOk) = false := by
    simp [hex]
  rw [runMain]
  simp [h1, h2, hcond, h3, hex, moveLoop_spec]
  exact List.filterMap_eq_map (fun f => (f, notADirMsg)) ▸ rfl

/-- C10 witness: a listing whose destination name exists as a regular file;
the confirmed run is not fatal, creates nothing, moves nothing, reports the
single match as failed with the not-a-directory reason, and dispatches the
no-movement notification. -/
theorem dest_regular_file_run_witness :
    discover entDestIsFile (normalizeExt (".mov".data)) ≠ [] ∧
    destIsFileB entDestIsFile (normalizeExt (".mov".data)) = true ∧
    (runMain entDestIsFile [] (".mov".data) ("s\n".data) true noRenameErr).fatal = false ∧
    (runMain entDestIsFile [] (".mov".data) ("s\n".data) true noRenameErr).createdDest = false ∧
    (runMain entDestIsFile [] (".mov".data) ("s\n".data) true noRenameErr).moved = 0 ∧
    (runMain entDestIsFile [] (".mov".data) ("s\n".data) true noRenameErr).failures =
      [("a.mov".data, notADirMsg)] ∧
    (runMain entDestIsFile [] (".mov".data) ("s\n".data) true noRenameErr).notification =
      some NotifKind.noMovement :=
  ⟨by decide, by decide,
    (dest_regular_file_run entDestIsFile [] (".mov".data) ("s\n".data) true noRenameErr
      (by decide) (by decide) (by decide)).1,
    (dest_regular_file_run entDestIsFile [] (".mov".data) ("s\n".data) true noRenameErr
      (by decide) (by decide) (by decide)).2.1,
    (dest_regular_file_run entDestIsFile [] (".mov".data) ("s\n".data) true noRenameErr
      (by decide) (by decide) (by decide)).2.2.2.1,
    ((dest_regular_file_run entDestIsFile [] (".mov".data) ("s\n".data) true noRenameErr
      (by decide) (by decide) (by decide)).2.2.2.2.2.1).trans (by decide),
    (dest_regular_file_run entDestIsFile [] (".mov".data) ("s\n".data) true noRenameErr
      (by decide) (by decide) (by decide)).2.2.2.2.2.2⟩

end Organizador
